import Mathlib

/-!
Verification of the query-and-serialization core of the Hardware Store API
(`src/main.py`): identifier codec, serializer with defaulting, filter
builder, repository access, and seed loader.

The document store (MongoDB via pymongo) and the `bson.ObjectId` codec are
external collaborators of the repository; the spec treats the store as a
black-box document store. They are embedded here by their standard
semantics: a collection is a list of documents, `insert_one` appends,
`find_one` returns the first match, and an `ObjectId` is 12 bytes whose
wire form is a 24-character hexadecimal string.
-/

/-- A raw store document for the `product` collection. Field names follow
the documents written by `seed_products` and read by `serialize_product`
in `src/main.py`; every field may be absent (`none`). The `_id` is the
store-native identifier: 12 bytes, each `< 256`. Prices are embedded as
rationals (the store holds ordinary numerics; no arithmetic is done on
them). -/
structure Doc where
  _id : Option (List Nat)
  title : Option String
  description : Option String
  price : Option ℚ
  category : Option String
  in_stock : Option Bool
  image_url : Option String
  brand : Option String
deriving Repr, DecidableEq

/-- The outbound wire shape `ProductOut` of `src/main.py` (lines 26-27):
the `Product` model of `schemas.py` (absent from `src/`; its field shape is
taken from spec section 3: `title`, `description`, `category`, `image_url`,
`brand` optional pass-through text, `price` numeric, `in_stock` boolean)
plus a required string `id`. -/
structure ProductOut where
  id : String
  title : Option String
  description : Option String
  price : ℚ
  category : Option String
  in_stock : Bool
  image_url : Option String
  brand : Option String
deriving Repr, DecidableEq

/-- Hexadecimal digit for a nibble `n < 16`, lowercase, as produced by
`str(ObjectId)`. -/
def hexChar (n : Nat) : Char :=
  if n < 10 then Char.ofNat (48 + n) else Char.ofNat (97 + n - 10)

/-- Numeric value of a hexadecimal digit (either case), as accepted by the
`bson.ObjectId` string constructor. -/
def hexVal (c : Char) : Nat :=
  if c.isDigit then c.toNat - 48
  else if 'a' ≤ c ∧ c ≤ 'f' then c.toNat - 97 + 10
  else c.toNat - 65 + 10

/-- Whether `c` is a hexadecimal digit of either case. -/
def isHexDigit (c : Char) : Bool :=
  c.isDigit || ('a' ≤ c && c ≤ 'f') || ('A' ≤ c && c ≤ 'F')

/-- The two hex characters of one byte. -/
def byteHex (b : Nat) : List Char :=
  [hexChar (b / 16), hexChar (b % 16)]

/-- `encode`: the canonical textual form of a store-native identifier,
i.e. `str(oid)` on a `bson.ObjectId` — the lowercase hex of its 12 bytes. -/
def encodeObjectId (bs : List Nat) : String :=
  ⟨bs.flatMap byteHex⟩

/-- Reassemble bytes from consecutive pairs of hex characters. -/
def hexPairsToBytes : List Char → List Nat
  | c1 :: c2 :: rest => (16 * hexVal c1 + hexVal c2) :: hexPairsToBytes rest
  | _ => []

/-- Structural validity of an identifier string: the `ObjectId(s)`
constructor accepts exactly the 24-character hexadecimal strings
(spec section 4.1: wrong length/charset is rejected). -/
def isValidOidString (s : String) : Bool :=
  s.length == 24 && s.data.all isHexDigit

/-- `decode`: `ObjectId(s)` — parse the textual form back to the 12-byte
native identifier, or fail on a structurally invalid string. -/
def decodeObjectId (s : String) : Option (List Nat) :=
  if isValidOidString s then some (hexPairsToBytes s.data) else none

/-- Python `str(doc.get("_id"))` as used in `serialize_product`: a present
identifier is rendered through the codec; an absent one is the value
`None`, which `str` renders as the text `"None"`. -/
def strOfId : Option (List Nat) → String
  | some oid => encodeObjectId oid
  | none => "None"

/-- `serialize_product` (`src/main.py` lines 74-84): map a raw store
document to the outbound `ProductOut`, defaulting absent `price` to `0`
and absent `in_stock` to `true`; the remaining fields pass through. -/
def serialize_product (doc : Doc) : ProductOut :=
  { id := strOfId doc._id
    title := doc.title
    description := doc.description
    price := doc.price.getD 0
    category := doc.category
    in_stock := doc.in_stock.getD true
    image_url := doc.image_url
    brand := doc.brand }

/-- One pattern character against one subject character, case-insensitively
(the `$options: "i"` flag). Modelled from the spec: the store engine's
text-pattern matcher (PCRE `$regex`) is an external collaborator; this
embedding covers patterns made of literal characters and the `.` wildcard,
which matches any subject character. -/
def charMatches (p c : Char) : Bool :=
  p = '.' || p.toLower = c.toLower

/-- Whether the pattern matches a prefix of the subject. -/
def regexHere : List Char → List Char → Bool
  | [], _ => true
  | _ :: _, [] => false
  | p :: ps, c :: cs => charMatches p c && regexHere ps cs

/-- Unanchored regex search: whether the pattern matches at some position
of the subject, as Mongo's `$regex` operator does. -/
def regexSearch (pat : List Char) : List Char → Bool
  | [] => regexHere pat []
  | s@(_ :: cs) => regexHere pat s || regexSearch pat cs

/-- Whether the needle occurs literally in a prefix of the haystack,
comparing characters case-insensitively. -/
def litHere : List Char → List Char → Bool
  | [], _ => true
  | _ :: _, [] => false
  | p :: ps, c :: cs => (p.toLower = c.toLower : Bool) && litHere ps cs

/-- Case-insensitive literal substring containment. -/
def litSearch (pat : List Char) : List Char → Bool
  | [] => litHere pat []
  | s@(_ :: cs) => litHere pat s || litSearch pat cs

/-- Case-insensitive substring containment on strings, the matching the
spec ascribes to each field of the query disjunction. -/
def containsCI (needle hay : String) : Bool :=
  litSearch needle.data hay.data

/-- A `{"field": {"$regex": pat, "$options": "i"}}` condition on an
optional field: an absent field matches nothing. -/
def fieldRegexMatch (pat : String) (f : Option String) : Bool :=
  match f with
  | none => false
  | some s => regexSearch pat.data s.data

/-- Case-insensitive literal containment on an optional field; absent
fields contain nothing. -/
def fieldContainsCI (needle : String) (f : Option String) : Bool :=
  match f with
  | none => false
  | some s => containsCI needle s

/-- The filter dictionary built by `list_products` (`src/main.py` lines
93-101). Its shape is fixed by the code: an optional `$or` group of three
`$regex` conditions sharing one pattern, and an optional exact `category`
equality. -/
structure Filters where
  qOr : Option String
  category : Option String
deriving Repr, DecidableEq

/-- The filter construction of `list_products`: Python `if q:` adds the
`$or` group only for a present, non-empty `q`, and `if category:` adds the
equality only for a present, non-empty `category`. -/
def build_filters (q category : Option String) : Filters :=
  { qOr := match q with
      | some s => if s = "" then none else some s
      | none => none
    category := match category with
      | some c => if c = "" then none else some c
      | none => none }

/-- The `$or` group over `title`, `description`, `brand` with pattern
`pat`. -/
def textCond (pat : String) (d : Doc) : Bool :=
  fieldRegexMatch pat d.title || fieldRegexMatch pat d.description ||
    fieldRegexMatch pat d.brand

/-- Store evaluation of a built filter against a document: the `$or`
group (when present) and the `category` equality (when present) must both
hold. An absent condition matches every document. -/
def docMatches (f : Filters) (d : Doc) : Bool :=
  (match f.qOr with
    | none => true
    | some pat => textCond pat d)
  && (match f.category with
    | none => true
    | some c => d.category == some c)

/-- Modelled from the spec: `get_documents` lives in `database.py`, which
is not under `src/`; spec section 4.3 specifies `find_many(filter, limit)`
as executing the filter and returning at most `limit` records. The store
is a list of documents; matches are returned in store order, truncated at
`limit`. -/
def get_documents (store : List Doc) (f : Filters) (limit : Nat) : List Doc :=
  (store.filter (fun d => docMatches f d)).take limit

/-- `list_products` (`src/main.py` lines 87-104): build the filters from
the validated query parameters, fetch at most `limit` documents, and
serialize each. -/
def list_products (store : List Doc) (q category : Option String)
    (limit : Nat) : List ProductOut :=
  (get_documents store (build_filters q category) limit).map serialize_product

/-- `get_product` (`src/main.py` lines 113-123): parse the path id with
`ObjectId(product_id)` (HTTP 400 on failure), point-look-up by `_id`
(HTTP 404 when absent), otherwise serialize the match. `find_one` returns
the first matching document. -/
def get_product (store : List Doc) (product_id : String) :
    Except Nat ProductOut :=
  match decodeObjectId product_id with
  | none => .error 400
  | some oid =>
    match store.find? (fun d => d._id == some oid) with
    | none => .error 404
    | some doc => .ok (serialize_product doc)

/-- The fixed built-in catalog of `seed_products` (`src/main.py` lines
134-207): eight candidate documents, in source order, without `_id` (the
store assigns identifiers; identifier assignment is irrelevant to the
seeding claims, so seeded documents keep `_id := none` here). -/
def sample : List Doc :=
  [ { _id := none
      title := some "Cordless Drill Driver 20V (2 Batteries)"
      description := some "Compact 20V drill/driver with 2x 2.0Ah batteries, charger, and case."
      price := some (129.99 : ℚ)
      category := some "power-tools"
      in_stock := some true
      image_url := some "https://images.unsplash.com/photo-1604671801908-6df44230996e?q=80&w=1200&auto=format&fit=crop"
      brand := some "ToolPro" },
    { _id := none
      title := some "Brushless Impact Driver 18V"
      description := some "High‑torque brushless impact driver, variable speed, belt clip included."
      price := some (149.0 : ℚ)
      category := some "power-tools"
      in_stock := some true
      image_url := some "https://images.unsplash.com/photo-1605146768851-eda79da39894?q=80&w=1200&auto=format&fit=crop"
      brand := some "VoltMax" },
    { _id := none
      title := some "Claw Hammer 16oz Fiberglass"
      description := some "Durable fiberglass handle with non‑slip grip and polished steel head."
      price := some (19.99 : ℚ)
      category := some "hand-tools"
      in_stock := some true
      image_url := some "https://images.unsplash.com/photo-1581092921461-eab62e97a14f?q=80&w=1200&auto=format&fit=crop"
      brand := some "ForgeMaster" },
    { _id := none
      title := some "Pro Screwdriver Set (10pc)"
      description := some "Magnetic tips, chrome‑vanadium steel, organized storage tray."
      price := some (24.5 : ℚ)
      category := some "hand-tools"
      in_stock := some true
      image_url := some "https://images.unsplash.com/photo-1597692493640-5c0f1ca2ab40?q=80&w=1200&auto=format&fit=crop"
      brand := some "PrecisionX" },
    { _id := none
      title := some "Assorted Wood Screws (200pc)"
      description := some "Multi‑size zinc‑plated wood screws in resealable box."
      price := some (12.49 : ℚ)
      category := some "fasteners"
      in_stock := some true
      image_url := some "https://images.unsplash.com/photo-1610259110184-ef316b7cbb60?q=80&w=1200&auto=format&fit=crop"
      brand := some "GripTite" },
    { _id := none
      title := some "LED Work Light Rechargeable"
      description := some "1000‑lumen folding work light with magnetic base and USB‑C charging."
      price := some (34.95 : ℚ)
      category := some "electrical"
      in_stock := some false
      image_url := some "https://images.unsplash.com/photo-1487058792275-0ad4aaf24ca7?q=80&w=1200&auto=format&fit=crop"
      brand := some "BrightBeam" },
    { _id := none
      title := some "PTFE Thread Seal Tape (10 Rolls)"
      description := some "For leak‑free pipe fittings; 1/2 in. x 520 in."
      price := some (9.99 : ℚ)
      category := some "plumbing"
      in_stock := some true
      image_url := some "https://images.unsplash.com/photo-1503387762-592deb58ef4e?q=80&w=1200&auto=format&fit=crop"
      brand := some "SealSure" },
    { _id := none
      title := some "Interior Wall Paint, Satin 1 Gal"
      description := some "Low‑odor, quick‑drying acrylic latex paint; great coverage."
      price := some (32.0 : ℚ)
      category := some "paint"
      in_stock := some true
      image_url := some "https://images.unsplash.com/photo-1507666664345-c492233acf60?q=80&w=1200&auto=format&fit=crop"
      brand := some "ColorCraft" } ]

/-- The seeding loop of `seed_products` (`src/main.py` lines 209-215):
for each candidate in order, `find_one({"title": p["title"]})` against the
current collection; a match skips the candidate, otherwise `insert_one`
appends it and the counter increments. Returns the counter and the final
collection. -/
def seedLoop : List Doc → List Doc → Nat → Nat × List Doc
  | [], store, inserted => (inserted, store)
  | p :: ps, store, inserted =>
    match store.find? (fun d => d.title == p.title) with
    | some _ => seedLoop ps store inserted
    | none => seedLoop ps (store ++ [p]) (inserted + 1)

/-- `seed_products` (`src/main.py` lines 126-217): run the seeding loop
over the fixed catalog, returning `{"inserted": count}` together with the
resulting collection state. -/
def seed_products (store : List Doc) : Nat × List Doc :=
  seedLoop sample store 0

/-- The multiset of `title` values currently in the collection. -/
def storeTitles (store : List Doc) : List (Option String) :=
  store.map (fun d => d.title)

/-- A fully-populated document except for the store-assigned `_id`:
concretely a corrupt record in the sense of spec section 4.4. -/
def docNoId : Doc :=
  { _id := none
    title := some "Claw Hammer 16oz Fiberglass"
    description := some "Durable fiberglass handle."
    price := some (19.99 : ℚ)
    category := some "hand-tools"
    in_stock := some true
    image_url := some "https://example.com/hammer.jpg"
    brand := some "ForgeMaster" }

/-- Claim C1, counterexample: on a record with no `_id`, `serialize_product`
does not fail and reports no `CorruptRecord`; it silently coerces the
missing identifier into the outbound record as the text `"None"`
(Python `str(None)`). -/
theorem serialize_product_coerces_missing_id :
    serialize_product docNoId =
      { id := "None"
        title := some "Claw Hammer 16oz Fiberglass"
        description := some "Durable fiberglass handle."
        price := (19.99 : ℚ)
        category := some "hand-tools"
        in_stock := true
        image_url := some "https://example.com/hammer.jpg"
        brand := some "ForgeMaster" } := by
  rfl

/-- Claim C1, amended: the serializer's mapping is total — every record
maps to an outbound `ProductOut` — but a record with no `_id` is not
reported as `CorruptRecord`; its missing identifier is silently coerced
into the output as the string `"None"`. -/
theorem serialize_product_total_missing_id (d : Doc) (h : d._id = none) :
    (serialize_product d).id = "None" := by
  simp [serialize_product, h, strOfId]

/-- Witness for C1 at the concrete record `docNoId`. -/
theorem serialize_product_total_missing_id_witness :
    (serialize_product docNoId).id = "None" :=
  serialize_product_total_missing_id docNoId rfl

/-- Claim C3: absent `price` serializes to `0`; absent `in_stock`
serializes to `true`; present values are carried into the output. -/
theorem serialize_product_defaults (d : Doc) :
    (d.price = none → (serialize_product d).price = 0) ∧
    (d.in_stock = none → (serialize_product d).in_stock = true) ∧
    (∀ p, d.price = some p → (serialize_product d).price = p) ∧
    (∀ b, d.in_stock = some b → (serialize_product d).in_stock = b) := by
  refine ⟨fun h => ?_, fun h => ?_, fun p h => ?_, fun b h => ?_⟩ <;>
    simp [serialize_product, h]

/-- Witness for C3: the defaulting branches at a record missing both
fields, and the pass-through branches at `docNoId`. -/
theorem serialize_product_defaults_witness :
    ((serialize_product { docNoId with price := none, in_stock := none }).price = 0 ∧
      (serialize_product { docNoId with price := none, in_stock := none }).in_stock = true) ∧
    ((serialize_product docNoId).price = (19.99 : ℚ) ∧
      (serialize_product docNoId).in_stock = true) :=
  ⟨⟨(serialize_product_defaults _).1 rfl, (serialize_product_defaults _).2.1 rfl⟩,
    ⟨(serialize_product_defaults docNoId).2.2.1 _ rfl,
      (serialize_product_defaults docNoId).2.2.2 _ rfl⟩⟩

/-- Claim C5: seeding an empty store inserts the 8 catalog records and
returns `inserted = 8`; an immediately repeated invocation returns
`inserted = 0` and leaves the record count at 8. -/
theorem seed_products_twice_from_empty :
    (seed_products []).1 = 8 ∧
    ((seed_products []).2).length = 8 ∧
    (seed_products (seed_products []).2).1 = 0 ∧
    ((seed_products (seed_products []).2).2).length = 8 := by
  decide

/-- Claim C9: `find_many` returns at most `limit` records for any filter
and any `limit` in `[1, 100]`, and therefore `list_products` returns at
most `limit` serialized products; reason the bound is spec-modelled:
`get_documents` lives in `database.py`, absent from `src/`. -/
theorem find_many_respects_limit (store : List Doc) (f : Filters)
    (q c : Option String) (limit : Nat) (_h1 : 1 ≤ limit) (_h2 : limit ≤ 100) :
    (get_documents store f limit).length ≤ limit ∧
    (list_products store q c limit).length ≤ limit := by
  constructor
  · simp [get_documents]
  · simp [list_products, get_documents]

/-- Witness for C9 at the seeded catalog with the default limit 50. -/
theorem find_many_respects_limit_witness :
    (get_documents (seed_products []).2 (build_filters (some "drill") none) 50).length ≤ 50 ∧
    (list_products (seed_products []).2 (some "drill") none 50).length ≤ 50 :=
  find_many_respects_limit (seed_products []).2 (build_filters (some "drill") none)
    (some "drill") none 50 (by decide) (by decide)

/-- The seeding loop only appends: the prior collection is an unchanged
initial segment of the result. -/
theorem seedLoop_appends (ps : List Doc) (store : List Doc) (n : Nat) :
    ∃ added, (seedLoop ps store n).2 = store ++ added := by
  induction ps generalizing store n with
  | nil => exact ⟨[], by simp [seedLoop]⟩
  | cons p ps ih =>
    unfold seedLoop
    cases h : store.find? (fun d => d.title == p.title) with
    | some d => exact ih store n
    | none =>
      obtain ⟨added, hadd⟩ := ih (store ++ [p]) (n + 1)
      exact ⟨p :: added, by simp [hadd]⟩

/-- Claim C10: seeding only inserts — every document present before a
seed invocation is still present and unchanged afterwards; the prior
collection survives as an unchanged initial segment, so nothing is
updated or deleted. -/
theorem seed_products_only_inserts (store : List Doc) :
    (∃ added, (seed_products store).2 = store ++ added) ∧
    (∀ d ∈ store, d ∈ (seed_products store).2) := by
  obtain ⟨added, hadd⟩ := seedLoop_appends sample store 0
  refine ⟨⟨added, hadd⟩, fun d hd => ?_⟩
  simp [seed_products, hadd]
  exact Or.inl hd

/-- The seeding loop preserves distinctness of titles: a candidate is
inserted only after `find_one` reports its title absent. -/
theorem seedLoop_titles_nodup (ps : List Doc) (store : List Doc) (n : Nat)
    (h : (storeTitles store).Nodup) :
    (storeTitles (seedLoop ps store n).2).Nodup := by
  induction ps generalizing store n with
  | nil => simpa [seedLoop] using h
  | cons p ps ih =>
    unfold seedLoop
    cases hf : store.find? (fun d => d.title == p.title) with
    | some d => exact ih store n h
    | none =>
      apply ih
      have hnot : ∀ d ∈ store, ¬(d.title = p.title) := by
        intro d hd
        have := List.find?_eq_none.1 hf d hd
        simpa using this
      have hmem : p.title ∉ storeTitles store := by
        intro hm
        obtain ⟨d, hd, hdt⟩ := List.mem_map.1 hm
        exact hnot d hd hdt
      simp [storeTitles, List.nodup_append]
      exact ⟨h, by simpa [storeTitles] using hmem⟩

/-- Claim C6: seeding preserves title uniqueness — if no two documents in
the collection share a title before a seed invocation, none do after it. -/
theorem seed_products_titles_nodup (store : List Doc)
    (h : (storeTitles store).Nodup) :
    (storeTitles (seed_products store).2).Nodup :=
  seedLoop_titles_nodup sample store 0 h

/-- Witness for C6 at the empty store. -/
theorem seed_products_titles_nodup_witness :
    (storeTitles (seed_products []).2).Nodup :=
  seed_products_titles_nodup [] (by simp [storeTitles])

/-- `hexVal` inverts `hexChar` on nibbles. -/
theorem hexVal_hexChar (n : Nat) (h : n < 16) : hexVal (hexChar n) = n := by
  have hall : ∀ m : Fin 16, hexVal (hexChar m.val) = m.val := by decide
  exact hall ⟨n, h⟩

/-- `hexChar` produces hexadecimal digits. -/
theorem isHexDigit_hexChar (n : Nat) (h : n < 16) :
    isHexDigit (hexChar n) = true := by
  have hall : ∀ m : Fin 16, isHexDigit (hexChar m.val) = true := by decide
  exact hall ⟨n, h⟩

/-- Parsing consecutive hex pairs inverts the per-byte hex rendering. -/
theorem hexPairsToBytes_flatMap (bs : List Nat) (h : ∀ b ∈ bs, b < 256) :
    hexPairsToBytes (bs.flatMap byteHex) = bs := by
  induction bs with
  | nil => rfl
  | cons b bs ih =>
    have hb : b < 256 := h b (List.mem_cons_self b bs)
    have hdiv : b / 16 < 16 := Nat.div_lt_of_lt_mul (by omega)
    have hmod : b % 16 < 16 := Nat.mod_lt _ (by omega)
    have hrest : hexPairsToBytes (bs.flatMap byteHex) = bs :=
      ih (fun x hx => h x (List.mem_cons_of_mem b hx))
    have hstep : (b :: bs).flatMap byteHex =
        hexChar (b / 16) :: hexChar (b % 16) :: bs.flatMap byteHex := by
      rw [List.flatMap_cons]; rfl
    rw [hstep]
    simp only [hexPairsToBytes]
    rw [hexVal_hexChar _ hdiv, hexVal_hexChar _ hmod, hrest, Nat.div_add_mod]

/-- Every character of the hex rendering is a hexadecimal digit. -/
theorem flatMap_byteHex_all_hex (bs : List Nat) (h : ∀ b ∈ bs, b < 256) :
    (bs.flatMap byteHex).all isHexDigit = true := by
  induction bs with
  | nil => rfl
  | cons b bs ih =>
    have hb : b < 256 := h b (List.mem_cons_self b bs)
    have hdiv : b / 16 < 16 := Nat.div_lt_of_lt_mul (by omega)
    have hmod : b % 16 < 16 := Nat.mod_lt _ (by omega)
    simp [byteHex, isHexDigit_hexChar _ hdiv, isHexDigit_hexChar _ hmod,
      ih (fun x hx => h x (List.mem_cons_of_mem b hx))]

/-- The hex rendering has two characters per byte. -/
theorem flatMap_byteHex_length (bs : List Nat) :
    (bs.flatMap byteHex).length = 2 * bs.length := by
  induction bs with
  | nil => rfl
  | cons b bs ih => simp [byteHex, ih]; omega

/-- Claim C8: the Identifier Codec round-trips — decoding the canonical
textual form of any native 12-byte identifier yields the identifier
back. -/
theorem decode_encode_objectid (bs : List Nat) (h12 : bs.length = 12)
    (h256 : ∀ b ∈ bs, b < 256) :
    decodeObjectId (encodeObjectId bs) = some bs := by
  have hvalid : isValidOidString (encodeObjectId bs) = true := by
    show ((bs.flatMap byteHex).length == 24 && (bs.flatMap byteHex).all isHexDigit) = true
    rw [flatMap_byteHex_length, h12, flatMap_byteHex_all_hex bs h256]
    rfl
  simp only [decodeObjectId, hvalid, if_true]
  show some (hexPairsToBytes (bs.flatMap byteHex)) = some bs
  rw [hexPairsToBytes_flatMap bs h256]

/-- Witness for C8 at a concrete identifier. -/
theorem decode_encode_objectid_witness :
    decodeObjectId (encodeObjectId [0, 17, 34, 51, 68, 85, 102, 119, 136, 153, 170, 255]) =
      some [0, 17, 34, 51, 68, 85, 102, 119, 136, 153, 170, 255] :=
  decode_encode_objectid _ (by decide) (by decide)

/-- Characters with special meaning in the store engine's regular
expression syntax (PCRE). -/
def isRegexMeta (c : Char) : Bool :=
  c = '.' || c = '*' || c = '+' || c = '?' || c = '[' || c = ']' ||
  c = '(' || c = ')' || c = Char.ofNat 123 || c = Char.ofNat 125 ||
  c = '^' || c = '$' || c = '|' || c = '\\'

/-- On a pattern without the `.` wildcard, anchored regex matching is
literal case-insensitive matching. -/
theorem regexHere_eq_litHere (pat : List Char) (h : '.' ∉ pat) :
    ∀ s, regexHere pat s = litHere pat s := by
  induction pat with
  | nil => intro s; cases s <;> rfl
  | cons p ps ih =>
    intro s
    cases s with
    | nil => rfl
    | cons c cs =>
      have hp : ¬(p = '.') := fun e => h (e ▸ List.mem_cons_self p ps)
      have hps : '.' ∉ ps := fun m => h (List.mem_cons_of_mem p m)
      simp [regexHere, litHere, charMatches, hp, ih hps]

/-- On a pattern without the `.` wildcard, unanchored regex search is
case-insensitive substring containment. -/
theorem regexSearch_eq_litSearch (pat : List Char) (h : '.' ∉ pat) :
    ∀ s, regexSearch pat s = litSearch pat s := by
  intro s
  induction s with
  | nil => simp [regexSearch, litSearch, regexHere_eq_litHere pat h]
  | cons c cs ih =>
    simp [regexSearch, litSearch, regexHere_eq_litHere pat h, ih]

/-- Claim C2, amended: for a present, non-empty query `q` none of whose
characters has special regex meaning, a record satisfies the built filter
iff at least one of `title`, `description`, `brand` contains `q` as a
case-insensitive substring. For general `q` the match is case-insensitive
regex search, not substring containment. -/
theorem query_filter_substring (q : String) (d : Doc) (hq : q ≠ "")
    (hmeta : ∀ c ∈ q.data, isRegexMeta c = false) :
    docMatches (build_filters (some q) none) d = true ↔
      (fieldContainsCI q d.title = true ∨ fieldContainsCI q d.description = true ∨
        fieldContainsCI q d.brand = true) := by
  have hdot : '.' ∉ q.data := by
    intro m
    have := hmeta _ m
    simp [isRegexMeta] at this
  have hs : ∀ s : List Char, regexSearch q.data s = litSearch q.data s :=
    regexSearch_eq_litSearch q.data hdot
  simp only [docMatches, build_filters, hq, if_neg, if_false, textCond]
  cases d.title <;> cases d.description <;> cases d.brand <;>
    simp [fieldRegexMatch, fieldContainsCI, containsCI, hs, hq, or_assoc]

/-- A concrete record whose only populated text field is the title
`"xyz"`. -/
def docXyz : Doc :=
  { _id := none, title := some "xyz", description := none, price := none,
    category := none, in_stock := none, image_url := none, brand := none }

/-- Claim C2, counterexample: the query is embedded in the filter as an
unescaped regex pattern, so `q = "x.z"` matches the record titled
`"xyz"` even though no field contains `"x.z"` as a substring. -/
theorem query_regex_escapes_substring :
    docMatches (build_filters (some "x.z") none) docXyz = true ∧
    fieldContainsCI "x.z" docXyz.title = false ∧
    fieldContainsCI "x.z" docXyz.description = false ∧
    fieldContainsCI "x.z" docXyz.brand = false := by
  decide

/-- A concrete record matching the query `"drill"` by title. -/
def docDrill : Doc :=
  { _id := none, title := some "Cordless Drill", description := none,
    price := none, category := some "power-tools", in_stock := none,
    image_url := none, brand := none }

/-- Witness for C2 at the query `"drill"` and the record `docDrill`. -/
theorem query_filter_substring_witness :
    docMatches (build_filters (some "drill") none) docDrill = true ↔
      (fieldContainsCI "drill" docDrill.title = true ∨
        fieldContainsCI "drill" docDrill.description = true ∨
        fieldContainsCI "drill" docDrill.brand = true) :=
  query_filter_substring "drill" docDrill (by decide) (by decide)

/-- Claim C4, amended: for a present, **non-empty** `category`, the
builder adds a conjunctive exact-match condition — alone it selects
exactly the records with that category, and together with a non-empty
query the filter is the conjunction of the text OR-group and the category
equality. -/
theorem category_filter_conjunctive (q c : String) (d : Doc) (hc : c ≠ "") :
    (docMatches (build_filters none (some c)) d = true ↔ d.category = some c) ∧
    (q ≠ "" →
      (docMatches (build_filters (some q) (some c)) d = true ↔
        (textCond q d = true ∧ d.category = some c))) := by
  constructor
  · simp [docMatches, build_filters, hc]
  · intro hq
    simp [docMatches, build_filters, hc, hq]

/-- Claim C4, counterexample: a present-but-empty `category` adds no
condition (Python `if category:`), so a record whose category differs
from the presented value still matches the filter. -/
theorem category_present_empty_ignored :
    docMatches (build_filters (some "drill") (some "")) docDrill = true ∧
    docDrill.category ≠ some "" := by
  decide

/-- Witness for C4 at `q = "drill"`, `category = "power-tools"`, and the
record `docDrill`. -/
theorem category_filter_conjunctive_witness :
    (docMatches (build_filters none (some "power-tools")) docDrill = true ↔
      docDrill.category = some "power-tools") ∧
    (docMatches (build_filters (some "drill") (some "power-tools")) docDrill = true ↔
      (textCond "drill" docDrill = true ∧ docDrill.category = some "power-tools")) :=
  ⟨(category_filter_conjunctive "drill" "power-tools" docDrill (by decide)).1,
    (category_filter_conjunctive "drill" "power-tools" docDrill (by decide)).2 (by decide)⟩

/-- Claim C7: `get_product` fails with HTTP 400 on a structurally invalid
id string, fails with HTTP 404 on a valid id matching no record, and
otherwise returns the first matching record, serialized. -/
theorem get_product_cases (store : List Doc) (s : String) :
    (isValidOidString s = false → get_product store s = .error 400) ∧
    (∀ oid, decodeObjectId s = some oid →
      store.find? (fun d => d._id == some oid) = none →
      get_product store s = .error 404) ∧
    (∀ oid d, decodeObjectId s = some oid →
      store.find? (fun d => d._id == some oid) = some d →
      get_product store s = .ok (serialize_product d)) := by
  refine ⟨fun h => ?_, fun oid hdec hfind => ?_, fun oid d hdec hfind => ?_⟩
  · simp [get_product, decodeObjectId, h]
  · simp [get_product, hdec, hfind]
  · simp [get_product, hdec, hfind]

/-- A concrete native identifier and a store holding one record with it. -/
def oidW : List Nat := [0, 1, 2, 3, 4, 5, 6, 7, 8, 9, 10, 11]

/-- A concrete stored record carrying the identifier `oidW`. -/
def docW : Doc := { docXyz with _id := some oidW }

/-- Witness for C7: a malformed id, a well-formed absent id, and a
well-formed present id, each at a concrete store. -/
theorem get_product_cases_witness :
    get_product [docW] "zz" = .error 400 ∧
    get_product [] "000102030405060708090a0b" = .error 404 ∧
    get_product [docW] "000102030405060708090a0b" = .ok (serialize_product docW) :=
  ⟨(get_product_cases [docW] "zz").1 (by decide),
    (get_product_cases [] "000102030405060708090a0b").2.1 oidW (by decide) rfl,
    (get_product_cases [docW] "000102030405060708090a0b").2.2 oidW docW (by decide) rfl⟩

/-- Witness for C10: a pre-existing record survives a seed invocation. -/
theorem seed_products_only_inserts_witness :
    docDrill ∈ (seed_products [docDrill]).2 :=
  (seed_products_only_inserts [docDrill]).2 docDrill (List.mem_singleton.mpr rfl)
